import Mathlib

/-!
Verification development for `hcaptcha_challenger/tools/spatial_point_reasoning.py`
(`SpatialPointReasoner.invoke_async` and its tenacity retry envelope).

The Python function is shallowly embedded: the Gemini client (file upload,
content generation) and the JSON-block extraction utility are external
collaborators, abstracted as oracles; the function body is translated
line by line into `invoke_async_body`, and the `@retry` decorator
(tenacity: `stop_after_attempt(3)`, `wait_fixed(3)`, a `before_sleep`
warning log, and the default `reraise=False`, under which exhaustion
raises a `RetryError` wrapping the last attempt's exception) is
translated into `retryRun` / `invoke_async`.  Observable network traffic
is recorded as an event trace, and logging as a log trace.
-/

set_option maxRecDepth 4000

namespace HCaptcha

/-- The fixed system prompt (`THINKING_PROMPT` in the source), verbatim. -/
def THINKING_PROMPT : String :=
  "\n**Rule for \x27Find the Different Object\x27 Tasks:**\n\n" ++
  "*   **Constraint:** Do **NOT** consider size differences caused by perspective (near/far).\n" ++
  "*   **Focus:** Identify difference based **only** on object outline, shape, and core structural features.\n\n" ++
  "**Core Principles for Visual Analysis:**\n\n" ++
  "*   **Processing Order:** Always analyze **Global Context** before **Local Details**.\n" ++
  "*   **Perspective:** Maintain awareness of the overall scene (\"look outside the immediate focus\") when interpreting specific elements.\n" ++
  "*   **Validation:** Ensure local interpretations are consistent with the global context to avoid settling for potentially incorrect \"local optima\".\n" ++
  "*   **Method:** Employ a calm, systematic, top-down (Global-to-Local) analysis workflow.\n\n" ++
  "**Workflow:**\n" ++
  "1. Identify challenge prompt about the Challenge Image\n" ++
  "2. Think about what the challenge requires identification goals, and where are they in the picture\n" ++
  "3. Based on the plane rectangular coordinate system, reasoning about the absolute position of the \"answer object\" in the coordinate system\n\n" ++
  "Finally, solve the challenge, locate the object, output the coordinates of the correct answer as json. Follow the following format to return a coordinates wrapped with a json code block:\n\n" ++
  "```json\n\x7b\n  \"challenge_prompt\": \"Task description\",\n  \"points\": [\n    \x7b\"x\": x1, \"y\": y1\x7d\n  ]\n\x7d\n```\n"

/-- A handle returned by the provider's file upload (`uri` and `mime_type`
attributes of the uploaded file object). -/
structure UploadedFile where
  uri : String
  mime_type : String
deriving DecidableEq

/-- One content part of the request (`types.Part.from_uri` / `types.Part.from_text`). -/
inductive Part where
  | from_uri (file_uri : String) (mime_type : String)
  | from_text (text : String)
deriving DecidableEq

/-- One conversational turn (`types.Content(role=..., parts=...)`). -/
structure Content where
  role : String
  parts : List Part
deriving DecidableEq

/-- Deliberation settings (`types.ThinkingConfig`). -/
structure ThinkingConfig where
  include_thoughts : Bool
  thinking_budget : Int
deriving DecidableEq

/-- The request configuration (`types.GenerateContentConfig`).  The
`response_schema_attached` field records whether `response_schema` was set to
the `ImageAreaSelectChallenge` class. -/
structure GenerateContentConfig where
  temperature : Nat
  system_instruction : String
  thinking_config : Option ThinkingConfig
  response_mime_type : Option String
  response_schema_attached : Bool
deriving DecidableEq

/-- A point guess `(x, y)`. -/
structure Point where
  x : Int
  y : Int
deriving DecidableEq

/-- The structured result type (`ImageAreaSelectChallenge` from
`hcaptcha_challenger/models.py`). -/
structure ImageAreaSelectChallenge where
  challenge_prompt : String
  points : List Point
deriving DecidableEq

/-- Raw decoded fields of a candidate result, before pydantic validation
(the dict produced by `extract_first_json_block`, or `parsed.model_dump()`). -/
structure RawChallengeFields where
  challenge_prompt : String
  points : List Point
deriving DecidableEq

/-- Modelled from the spec: `ImageAreaSelectChallenge` validation.
`hcaptcha_challenger/models.py` is not under `src/`; per the spec's data
model, the result of a successful parse is a `challenge_prompt` string and a
`points` sequence that is non-empty on success, enforced at
validation/coercion time (`ImageAreaSelectChallenge(**fields)`). -/
def validateImageAreaSelectChallenge (rc : RawChallengeFields) :
    Option ImageAreaSelectChallenge :=
  if rc.points = [] then none
  else some (ImageAreaSelectChallenge.mk rc.challenge_prompt rc.points)

/-- A provider response (`GenerateContentResponse`): raw `text` and the
optional pre-parsed structured object `parsed`. -/
structure Response where
  text : String
  parsed : Option RawChallengeFields
deriving DecidableEq

/-- Modelled from the spec: the external collaborators.  The Gemini client
(`client.aio.files.upload`, `client.aio.models.generate_content`) and the
JSON-block extraction utility `extract_first_json_block`
(`hcaptcha_challenger/tools/common.py`, not under `src/`) are external to the
adapter; each is abstracted as a function that either succeeds with a value
or fails (`none` models a raised exception / extraction failure). -/
structure ProviderOracle where
  upload : String → Option UploadedFile
  generate : String → List Content → GenerateContentConfig → Option Response
  extract_first_json_block : String → Option RawChallengeFields

/-- Modelled from the spec: the `_Reasoner` construction contract
(`hcaptcha_challenger/tools/reasoner.py` is not under `src/`): construction
stores the API credential, the default model (possibly absent) and the
schema-constraint default, never mutated thereafter; `_response` is the
attribute assigned by `invoke_async` (absent before the first assignment). -/
structure SolverState where
  _api_key : String
  _model : Option String
  _constraint_response_schema : Bool
  _response : Option Response
deriving DecidableEq

/-- The Python value passed as `auxiliary_information`: `None`, a string, or
some non-string value. -/
inductive PyStrOpt where
  | pyNone
  | str (s : String)
  | nonStr
deriving DecidableEq

/-- The Python value found under `kwargs["thinking_budget"]`: an `int`, or a
value of some other type (`isinstance(thinking_budget, int)` fails). -/
inductive ThinkingBudgetArg where
  | int (b : Int)
  | nonInt
deriving DecidableEq

/-- The keyword arguments read by `invoke_async`: `model` (note the stored
value may itself be `None`), `enable_response_schema`, `thinking_budget`.
`none` at the outer layer means the key is absent. -/
structure Kwargs where
  model : Option (Option String)
  enable_response_schema : Option Bool
  thinking_budget : Option ThinkingBudgetArg
deriving DecidableEq

/-- The positional/keyword arguments of one `invoke_async` call. -/
structure CallArgs where
  challenge_screenshot : String
  grid_divisions : String
  auxiliary_information : PyStrOpt
  constraint_response_schema : Option Bool
  kw : Kwargs
deriving DecidableEq

/-- An exception raised inside one attempt. -/
inductive PyError where
  | valueError (msg : String)
  | uploadError
  | generateError
  | malformedResponse
deriving DecidableEq

/-- The error surfaced to the caller of the retry-wrapped function: either a
bare exception propagating unmodified, or a tenacity `RetryError` wrapping
the last attempt's exception (the decorator's default `reraise=False`
produces the latter on exhaustion). -/
inductive FinalError where
  | raw (e : PyError)
  | retryError (last : PyError)
deriving DecidableEq

/-- An observable network interaction. -/
inductive NetEvent where
  | upload (file : String)
  | generate (model : String) (contents : List Content) (config : GenerateContentConfig)
deriving DecidableEq

/-- An observable retry-envelope action: the `before_sleep` warning (the
source's message hardcodes the denominator `2`) and the fixed wait. -/
inductive LogEvent where
  | retryWarning (attempt_number : Nat) (denominator : Nat) (exc : PyError)
  | sleep (seconds : Nat)
deriving DecidableEq

/-- The message of the `ValueError` raised when no model is resolvable. -/
def modelRequiredMsg : String :=
  "Model must be provided either at initialization or via kwargs."

/-- `kwargs.pop("model", self._model)` — the effective model identifier. -/
def resolveModel (kw : Kwargs) (st : SolverState) : Option String :=
  match kw.model with
  | some v => v
  | none => st._model

/-- Lines 81–86 of the source: the effective schema-constraint flag.  The
argument defaults to the stored flag when `None`; afterwards a non-`None`
`enable_response_schema` in kwargs overrides the result unconditionally. -/
def resolveSchemaFlag (stored : Bool) (arg : Option Bool) (kwEnable : Option Bool) : Bool :=
  let constraint_response_schema :=
    match arg with
    | none => stored
    | some b => b
  match kwEnable with
  | none => constraint_response_schema
  | some b => b

/-- The schema-flag precedence as the spec's words state it: explicit
per-call override first, then the constructor default, then the prompt-level
override supplied via kwargs (which, the stored default being always
present, can then never take effect).  Declared only to be compared with
`resolveSchemaFlag`, the definition taken from the source. -/
def resolveSchemaFlagSpec (stored : Bool) (arg : Option Bool) (kwEnable : Option Bool) : Bool :=
  match arg with
  | some b => b
  | none =>
    match (stored, kwEnable) with
    | (b, _) => b

/-- Lines 103–108 of the source: the user content parts — the two uploaded
image references first, then the auxiliary text, appended only when
`auxiliary_information` is truthy and a string. -/
def buildParts (f0 f1 : UploadedFile) (auxiliary_information : PyStrOpt) : List Part :=
  let parts := [Part.from_uri f0.uri f0.mime_type, Part.from_uri f1.uri f1.mime_type]
  match auxiliary_information with
  | PyStrOpt.str s => if s ≠ "" then parts ++ [Part.from_text s] else parts
  | _ => parts

/-- Lines 112–119 of the source: the request config — temperature 0, the
fixed prompt as out-of-band system instruction, and a thinking config
attached exactly when the model is among `THINKING_BUDGET_MODELS` (the set,
from `models.py` which is not under `src/`, is taken as the parameter `tbm`)
and an `int` thinking budget was supplied in kwargs. -/
def baseConfig (tbm : List String) (model_to_use : String)
    (thinking_budget : Option ThinkingBudgetArg) : GenerateContentConfig :=
  let config := GenerateContentConfig.mk 0 THINKING_PROMPT none none false
  match thinking_budget with
  | some (ThinkingBudgetArg.int b) =>
    if model_to_use ∈ tbm then
      GenerateContentConfig.mk config.temperature config.system_instruction
        (some (ThinkingConfig.mk true b)) config.response_mime_type
        config.response_schema_attached
    else config
  | _ => config

/-- Lines 130–131 of the source: switch the config to structured output
(`response_mime_type = "application/json"`, `response_schema =
ImageAreaSelectChallenge`). -/
def withJsonSchema (config : GenerateContentConfig) : GenerateContentConfig :=
  GenerateContentConfig.mk config.temperature config.system_instruction
    config.thinking_config (some "application/json") true

/-- `ImageAreaSelectChallenge(**extract_first_json_block(text))`: extraction
followed by validation. -/
def parseViaExtraction (o : ProviderOracle) (text : String) :
    Option ImageAreaSelectChallenge :=
  (o.extract_first_json_block text).bind validateImageAreaSelectChallenge

/-- The outcome of one attempt: result (or raised exception), the solver
state after the attempt, and the network events it produced. -/
structure AttemptResult where
  result : Except PyError ImageAreaSelectChallenge
  state : SolverState
  events : List NetEvent

/-- Store the provider response on the solver (`self._response = ...`). -/
def setResponse (st : SolverState) (resp : Response) : SolverState :=
  SolverState.mk st._api_key st._model st._constraint_response_schema (some resp)

/-- Lines 125–128 of the source: the free-text call — generate, store the
response, extract the first JSON block from its text and validate. -/
def freeTextCall (o : ProviderOracle) (st : SolverState) (events : List NetEvent)
    (model_to_use : String) (contents : List Content)
    (config : GenerateContentConfig) : AttemptResult :=
  let events := events ++ [NetEvent.generate model_to_use contents config]
  match o.generate model_to_use contents config with
  | none => AttemptResult.mk (Except.error PyError.generateError) st events
  | some resp =>
    match parseViaExtraction o resp.text with
    | none => AttemptResult.mk (Except.error PyError.malformedResponse) (setResponse st resp) events
    | some r => AttemptResult.mk (Except.ok r) (setResponse st resp) events

/-- Lines 133–139 of the source: the structured call — generate with the
schema config, store the response; if `parsed` is present, rebuild the
result from its dump, else fall back to free-text extraction. -/
def structuredCall (o : ProviderOracle) (st : SolverState) (events : List NetEvent)
    (model_to_use : String) (contents : List Content)
    (config : GenerateContentConfig) : AttemptResult :=
  let events := events ++ [NetEvent.generate model_to_use contents config]
  match o.generate model_to_use contents config with
  | none => AttemptResult.mk (Except.error PyError.generateError) st events
  | some resp =>
    match resp.parsed with
    | some parsed =>
      match validateImageAreaSelectChallenge parsed with
      | none => AttemptResult.mk (Except.error PyError.malformedResponse) (setResponse st resp) events
      | some r => AttemptResult.mk (Except.ok r) (setResponse st resp) events
    | none =>
      match parseViaExtraction o resp.text with
      | none => AttemptResult.mk (Except.error PyError.malformedResponse) (setResponse st resp) events
      | some r => AttemptResult.mk (Except.ok r) (setResponse st resp) events

/-- The body of `SpatialPointReasoner.invoke_async` (one attempt, before the
retry decorator): resolve the model (raising `ValueError` when absent),
resolve the schema flag, upload both images via `asyncio.gather` (both
uploads are issued; failure of either raises), build the content parts and
config, and issue the generate call in free-text mode when the flag is off
or the model is the legacy `gemini-2.0-flash-thinking-exp-01-21`, otherwise
in structured JSON mode. -/
def invoke_async_body (tbm : List String) (o : ProviderOracle) (st : SolverState)
    (a : CallArgs) : AttemptResult :=
  match resolveModel a.kw st with
  | none => AttemptResult.mk (Except.error (PyError.valueError modelRequiredMsg)) st []
  | some model_to_use =>
    let constraint_response_schema :=
      resolveSchemaFlag st._constraint_response_schema a.constraint_response_schema
        a.kw.enable_response_schema
    let events := [NetEvent.upload a.challenge_screenshot, NetEvent.upload a.grid_divisions]
    match o.upload a.challenge_screenshot, o.upload a.grid_divisions with
    | some f0, some f1 =>
      let contents := [Content.mk "user" (buildParts f0 f1 a.auxiliary_information)]
      let config := baseConfig tbm model_to_use a.kw.thinking_budget
      if constraint_response_schema = false ∨
          model_to_use ∈ ["gemini-2.0-flash-thinking-exp-01-21"] then
        freeTextCall o st events model_to_use contents config
      else
        structuredCall o st events model_to_use contents (withJsonSchema config)
    | _, _ => AttemptResult.mk (Except.error PyError.uploadError) st events

/-- The outcome of the whole retry-wrapped call. -/
structure RunResult where
  result : Except FinalError ImageAreaSelectChallenge
  state : SolverState
  events : List NetEvent
  logs : List LogEvent

/-- The tenacity retry loop: attempt number `n`, `fuel` further attempts
allowed (`stop_after_attempt(3)` gives initial fuel 2).  On failure with
fuel left: log the `before_sleep` warning (attempt number, the hardcoded
`/2` denominator, the exception), wait 3 seconds, and retry on the state the
failed attempt left behind.  On exhaustion, raise `RetryError` wrapping the
last exception (tenacity's default `reraise=False`). -/
def retryRun (tbm : List String) (oracles : Nat → ProviderOracle) (a : CallArgs) :
    Nat → Nat → SolverState → RunResult
  | n, 0, st =>
    let r := invoke_async_body tbm (oracles n) st a
    match r.result with
    | Except.ok v => RunResult.mk (Except.ok v) r.state r.events []
    | Except.error e =>
      RunResult.mk (Except.error (FinalError.retryError e)) r.state r.events []
  | n, Nat.succ fuel, st =>
    let r := invoke_async_body tbm (oracles n) st a
    match r.result with
    | Except.ok v => RunResult.mk (Except.ok v) r.state r.events []
    | Except.error e =>
      let rest := retryRun tbm oracles a (n + 1) fuel r.state
      RunResult.mk rest.result rest.state (r.events ++ rest.events)
        (LogEvent.retryWarning n 2 e :: LogEvent.sleep 3 :: rest.logs)

/-- `invoke_async` as callers see it: the body wrapped in
`@retry(stop=stop_after_attempt(3), wait=wait_fixed(3), before_sleep=...)`.
The oracle family gives each attempt its own provider behaviour. -/
def invoke_async (tbm : List String) (oracles : Nat → ProviderOracle)
    (st : SolverState) (a : CallArgs) : RunResult :=
  retryRun tbm oracles a 1 2 st

/-- A concrete uploaded-file handle, for the closed witness theorems. -/
def demoFile (f : String) : UploadedFile :=
  UploadedFile.mk ("files/" ++ f) "image/png"

/-- Concrete decoded JSON fields, for the closed witness theorems. -/
def demoFields : RawChallengeFields :=
  RawChallengeFields.mk "Task description" [Point.mk 12 34]

/-- The result those fields validate to. -/
def demoChallenge : ImageAreaSelectChallenge :=
  ImageAreaSelectChallenge.mk "Task description" [Point.mk 12 34]

/-- A concrete provider response. -/
def demoResponse : Response :=
  Response.mk "a json block" (some demoFields)

/-- A provider on which every interaction succeeds. -/
def okOracle : ProviderOracle :=
  ProviderOracle.mk (fun f => some (demoFile f)) (fun _ _ _ => some demoResponse)
    (fun _ => some demoFields)

/-- A provider on which every interaction raises. -/
def failUploadOracle : ProviderOracle :=
  ProviderOracle.mk (fun _ => none) (fun _ _ _ => none) (fun _ => none)

/-- An `invoke_async` call with no keyword arguments. -/
def noKwargs : Kwargs := Kwargs.mk none none none

/-- A solver constructed with a default model and schema flag off. -/
def demoState : SolverState := SolverState.mk "key" (some "gemini-2.5-pro") false none

/-- A plain call: two image paths, default (empty) auxiliary text. -/
def demoArgs : CallArgs :=
  CallArgs.mk "challenge.png" "grid.png" (PyStrOpt.str "") none noKwargs

/-- A solver constructed with no default model. -/
def noModelState : SolverState := SolverState.mk "key" none false none

/-- A call that passes the model through kwargs (so it resolves regardless of
the stored state). -/
def kwModelArgs : CallArgs :=
  CallArgs.mk "challenge.png" "grid.png" (PyStrOpt.str "") none
    (Kwargs.mk (some (some "gemini-2.5-flash")) none none)

/-- A `THINKING_BUDGET_MODELS` set containing the demo model. -/
def tbModels : List String := ["gemini-2.5-pro"]

/-- A call that supplies an integer thinking budget through kwargs. -/
def budgetArgs : CallArgs :=
  CallArgs.mk "challenge.png" "grid.png" (PyStrOpt.str "") none
    (Kwargs.mk none none (some (ThinkingBudgetArg.int 1024)))

/-- A solver whose default model is the legacy experimental identifier and
whose schema-constraint default is on. -/
def legacyState : SolverState :=
  SolverState.mk "key" (some "gemini-2.0-flash-thinking-exp-01-21") true none

/-- A call that passes a non-empty auxiliary string. -/
def auxArgs : CallArgs :=
  CallArgs.mk "challenge.png" "grid.png" (PyStrOpt.str "hint") none noKwargs

/-- A call that explicitly requests schema-constrained output through the
`constraint_response_schema` argument while the kwargs override disables it. -/
def argsC4 : CallArgs :=
  CallArgs.mk "challenge.png" "grid.png" (PyStrOpt.str "") (some true)
    (Kwargs.mk none (some false) none)

example :
    (invoke_async [] (fun _ => okOracle) demoState demoArgs).result =
      Except.ok demoChallenge := rfl

example :
    (invoke_async [] (fun _ => okOracle) demoState demoArgs).events =
      [NetEvent.upload "challenge.png", NetEvent.upload "grid.png",
       NetEvent.generate "gemini-2.5-pro"
         [Content.mk "user" [Part.from_uri "files/challenge.png" "image/png",
                             Part.from_uri "files/grid.png" "image/png"]]
         (GenerateContentConfig.mk 0 THINKING_PROMPT none none false)] := rfl

example :
    (invoke_async [] (fun _ => failUploadOracle) demoState demoArgs).result =
      Except.error (FinalError.retryError PyError.uploadError) := rfl

theorem validate_points_ne_nil (rc : RawChallengeFields) (r : ImageAreaSelectChallenge)
    (h : validateImageAreaSelectChallenge rc = some r) : r.points ≠ [] := by
  unfold validateImageAreaSelectChallenge at h
  split at h
  · simp at h
  · next hne =>
    injection h with h
    subst h
    exact hne

theorem parseViaExtraction_points_ne_nil (o : ProviderOracle) (t : String)
    (r : ImageAreaSelectChallenge) (h : parseViaExtraction o t = some r) :
    r.points ≠ [] := by
  unfold parseViaExtraction at h
  rw [Option.bind_eq_some] at h
  obtain ⟨rc, -, hv⟩ := h
  exact validate_points_ne_nil rc r hv

theorem freeTextCall_events (o : ProviderOracle) (st : SolverState) (ev : List NetEvent)
    (mu : String) (cts : List Content) (cfg : GenerateContentConfig) :
    (freeTextCall o st ev mu cts cfg).events = ev ++ [NetEvent.generate mu cts cfg] := by
  simp only [freeTextCall]
  split
  · rfl
  · split <;> rfl

theorem structuredCall_events (o : ProviderOracle) (st : SolverState) (ev : List NetEvent)
    (mu : String) (cts : List Content) (cfg : GenerateContentConfig) :
    (structuredCall o st ev mu cts cfg).events = ev ++ [NetEvent.generate mu cts cfg] := by
  simp only [structuredCall]
  split
  · rfl
  · split
    · split <;> rfl
    · split <;> rfl

theorem freeTextCall_ok (o : ProviderOracle) (st : SolverState) (ev : List NetEvent)
    (mu : String) (cts : List Content) (cfg : GenerateContentConfig)
    (r : ImageAreaSelectChallenge)
    (h : (freeTextCall o st ev mu cts cfg).result = Except.ok r) :
    ∃ resp, o.generate mu cts cfg = some resp ∧
      parseViaExtraction o resp.text = some r ∧
      (freeTextCall o st ev mu cts cfg).state = setResponse st resp := by
  cases hg : o.generate mu cts cfg with
  | none => simp [freeTextCall, hg] at h
  | some resp =>
    cases hp : parseViaExtraction o resp.text with
    | none => simp [freeTextCall, hg, hp] at h
    | some r0 =>
      simp only [freeTextCall, hg, hp] at h
      injection h with h
      subst h
      exact ⟨resp, rfl, hp, by simp [freeTextCall, hg, hp]⟩

theorem freeTextCall_state (o : ProviderOracle) (st : SolverState) (ev : List NetEvent)
    (mu : String) (cts : List Content) (cfg : GenerateContentConfig) :
    ∃ os, (freeTextCall o st ev mu cts cfg).state =
      SolverState.mk st._api_key st._model st._constraint_response_schema os := by
  simp only [freeTextCall]
  split
  · exact ⟨st._response, rfl⟩
  · split
    · exact ⟨_, rfl⟩
    · exact ⟨_, rfl⟩

theorem structuredCall_state (o : ProviderOracle) (st : SolverState) (ev : List NetEvent)
    (mu : String) (cts : List Content) (cfg : GenerateContentConfig) :
    ∃ os, (structuredCall o st ev mu cts cfg).state =
      SolverState.mk st._api_key st._model st._constraint_response_schema os := by
  simp only [structuredCall]
  split
  · exact ⟨st._response, rfl⟩
  · split
    · split
      · exact ⟨_, rfl⟩
      · exact ⟨_, rfl⟩
    · split
      · exact ⟨_, rfl⟩
      · exact ⟨_, rfl⟩

theorem structuredCall_ok_points (o : ProviderOracle) (st : SolverState) (ev : List NetEvent)
    (mu : String) (cts : List Content) (cfg : GenerateContentConfig)
    (r : ImageAreaSelectChallenge)
    (h : (structuredCall o st ev mu cts cfg).result = Except.ok r) :
    r.points ≠ [] := by
  cases hg : o.generate mu cts cfg with
  | none => simp [structuredCall, hg] at h
  | some resp =>
    cases hpd : resp.parsed with
    | some parsed =>
      cases hv : validateImageAreaSelectChallenge parsed with
      | none => simp [structuredCall, hg, hpd, hv] at h
      | some r0 =>
        simp only [structuredCall, hg, hpd, hv] at h
        injection h with h
        subst h
        exact validate_points_ne_nil parsed r0 hv
    | none =>
      cases hp : parseViaExtraction o resp.text with
      | none => simp [structuredCall, hg, hpd, hp] at h
      | some r0 =>
        simp only [structuredCall, hg, hpd, hp] at h
        injection h with h
        subst h
        exact parseViaExtraction_points_ne_nil o resp.text r0 hp

theorem invoke_async_body_state (tbm : List String) (o : ProviderOracle)
    (st : SolverState) (a : CallArgs) :
    ∃ os, (invoke_async_body tbm o st a).state =
      SolverState.mk st._api_key st._model st._constraint_response_schema os := by
  simp only [invoke_async_body]
  split
  · exact ⟨st._response, rfl⟩
  · split
    · split
      · exact freeTextCall_state ..
      · exact structuredCall_state ..
    · exact ⟨st._response, rfl⟩

theorem invoke_async_body_generate (tbm : List String) (o : ProviderOracle)
    (st : SolverState) (a : CallArgs) (m : String) (cts : List Content)
    (cfg : GenerateContentConfig)
    (h : NetEvent.generate m cts cfg ∈ (invoke_async_body tbm o st a).events) :
    resolveModel a.kw st = some m ∧
    ∃ f0 f1, o.upload a.challenge_screenshot = some f0 ∧
      o.upload a.grid_divisions = some f1 ∧
      cts = [Content.mk "user" (buildParts f0 f1 a.auxiliary_information)] ∧
      (cfg = baseConfig tbm m a.kw.thinking_budget ∨
        (cfg = withJsonSchema (baseConfig tbm m a.kw.thinking_budget) ∧
          m ∉ ["gemini-2.0-flash-thinking-exp-01-21"] ∧
          resolveSchemaFlag st._constraint_response_schema a.constraint_response_schema
            a.kw.enable_response_schema = true)) := by
  cases hM : resolveModel a.kw st with
  | none => simp [invoke_async_body, hM] at h
  | some mu =>
    cases hU1 : o.upload a.challenge_screenshot with
    | none => simp [invoke_async_body, hM, hU1] at h
    | some f0 =>
      cases hU2 : o.upload a.grid_divisions with
      | none => simp [invoke_async_body, hM, hU1, hU2] at h
      | some f1 =>
        simp only [invoke_async_body, hM, hU1, hU2] at h
        by_cases hc : resolveSchemaFlag st._constraint_response_schema
            a.constraint_response_schema a.kw.enable_response_schema = false ∨
            mu ∈ ["gemini-2.0-flash-thinking-exp-01-21"]
        · rw [if_pos hc, freeTextCall_events] at h
          simp only [List.mem_append, List.mem_cons, List.not_mem_nil, or_false,
            false_or, NetEvent.generate.injEq, reduceCtorEq] at h
          obtain ⟨hm, hcts, hcfg⟩ := h
          subst hm
          exact ⟨rfl, f0, f1, rfl, rfl, hcts, Or.inl hcfg⟩
        · rw [if_neg hc, structuredCall_events] at h
          simp only [List.mem_append, List.mem_cons, List.not_mem_nil, or_false,
            false_or, NetEvent.generate.injEq, reduceCtorEq] at h
          obtain ⟨hm, hcts, hcfg⟩ := h
          subst hm
          push_neg at hc
          exact ⟨rfl, f0, f1, rfl, rfl, hcts,
            Or.inr ⟨hcfg, hc.2, Bool.of_not_eq_false hc.1⟩⟩

theorem retryRun_generate (tbm : List String) (oracles : Nat → ProviderOracle)
    (a : CallArgs) :
    ∀ fuel n st m cts cfg,
      NetEvent.generate m cts cfg ∈ (retryRun tbm oracles a n fuel st).events →
      ∃ k st0, st0._model = st._model ∧
        st0._constraint_response_schema = st._constraint_response_schema ∧
        NetEvent.generate m cts cfg ∈ (invoke_async_body tbm (oracles k) st0 a).events := by
  intro fuel
  induction fuel with
  | zero =>
    intro n st m cts cfg h
    simp only [retryRun] at h
    split at h
    · exact ⟨n, st, rfl, rfl, h⟩
    · exact ⟨n, st, rfl, rfl, h⟩
  | succ fuel ih =>
    intro n st m cts cfg h
    simp only [retryRun] at h
    split at h
    · exact ⟨n, st, rfl, rfl, h⟩
    · simp only [List.mem_append] at h
      rcases h with h | h
      · exact ⟨n, st, rfl, rfl, h⟩
      · obtain ⟨k, st0, h1, h2, hmem⟩ := ih (n + 1)
          (invoke_async_body tbm (oracles n) st a).state m cts cfg h
        obtain ⟨os, hst⟩ := invoke_async_body_state tbm (oracles n) st a
        refine ⟨k, st0, ?_, ?_, hmem⟩
        · rw [h1, hst]
        · rw [h2, hst]

theorem retryRun_state (tbm : List String) (oracles : Nat → ProviderOracle)
    (a : CallArgs) :
    ∀ fuel n st, ∃ os, (retryRun tbm oracles a n fuel st).state =
      SolverState.mk st._api_key st._model st._constraint_response_schema os := by
  intro fuel
  induction fuel with
  | zero =>
    intro n st
    simp only [retryRun]
    split
    · exact invoke_async_body_state ..
    · exact invoke_async_body_state ..
  | succ fuel ih =>
    intro n st
    simp only [retryRun]
    split
    · exact invoke_async_body_state ..
    · obtain ⟨os, hst⟩ := invoke_async_body_state tbm (oracles n) st a
      obtain ⟨os2, hst2⟩ := ih (n + 1) (invoke_async_body tbm (oracles n) st a).state
      refine ⟨os2, ?_⟩
      rw [hst2, hst]

theorem retryRun_ok (tbm : List String) (oracles : Nat → ProviderOracle)
    (a : CallArgs) :
    ∀ fuel n st r, (retryRun tbm oracles a n fuel st).result = Except.ok r →
      ∃ k st0, st0._model = st._model ∧
        st0._constraint_response_schema = st._constraint_response_schema ∧
        (invoke_async_body tbm (oracles k) st0 a).result = Except.ok r ∧
        (retryRun tbm oracles a n fuel st).state =
          (invoke_async_body tbm (oracles k) st0 a).state := by
  intro fuel
  induction fuel with
  | zero =>
    intro n st r h
    cases hres : (invoke_async_body tbm (oracles n) st a).result with
    | ok v =>
      simp only [retryRun, hres] at h ⊢
      injection h with h
      subst h
      exact ⟨n, st, rfl, rfl, hres, rfl⟩
    | error e => simp [retryRun, hres] at h
  | succ fuel ih =>
    intro n st r h
    cases hres : (invoke_async_body tbm (oracles n) st a).result with
    | ok v =>
      simp only [retryRun, hres] at h ⊢
      injection h with h
      subst h
      exact ⟨n, st, rfl, rfl, hres, rfl⟩
    | error e =>
      simp only [retryRun, hres] at h ⊢
      obtain ⟨k, st0, h1, h2, hok, hstate⟩ := ih (n + 1)
        (invoke_async_body tbm (oracles n) st a).state r h
      obtain ⟨os, hst⟩ := invoke_async_body_state tbm (oracles n) st a
      refine ⟨k, st0, ?_, ?_, hok, ?_⟩
      · rw [h1, hst]
      · rw [h2, hst]
      · exact hstate

theorem buildParts_eq (f0 f1 : UploadedFile) (aux : PyStrOpt) :
    buildParts f0 f1 aux =
      [Part.from_uri f0.uri f0.mime_type, Part.from_uri f1.uri f1.mime_type] ++
        (match aux with
          | PyStrOpt.str s => if s = "" then [] else [Part.from_text s]
          | _ => []) := by
  unfold buildParts
  cases aux with
  | str s => by_cases hs : s = "" <;> simp [hs]
  | pyNone => rfl
  | nonStr => rfl

theorem buildParts_text_mem (f0 f1 : UploadedFile) (aux : PyStrOpt) (t : String)
    (h : Part.from_text t ∈ buildParts f0 f1 aux) : aux = PyStrOpt.str t := by
  cases aux with
  | str s =>
    by_cases hs : s ≠ ""
    · simp only [buildParts, if_pos hs] at h
      simp only [List.mem_append, List.mem_cons, List.not_mem_nil, or_false,
        false_or, Part.from_text.injEq, reduceCtorEq] at h
      rw [h]
    · simp only [buildParts, if_neg hs] at h
      simp at h
  | pyNone => simp [buildParts] at h
  | nonStr => simp [buildParts] at h

theorem baseConfig_fields (tbm : List String) (mu : String)
    (tb : Option ThinkingBudgetArg) :
    (baseConfig tbm mu tb).system_instruction = THINKING_PROMPT ∧
    (baseConfig tbm mu tb).response_mime_type = none ∧
    (baseConfig tbm mu tb).response_schema_attached = false ∧
    (baseConfig tbm mu tb).temperature = 0 := by
  unfold baseConfig
  cases tb with
  | none => exact ⟨rfl, rfl, rfl, rfl⟩
  | some t =>
    cases t with
    | int b => by_cases hb : mu ∈ tbm <;> simp [hb]
    | nonInt => exact ⟨rfl, rfl, rfl, rfl⟩

theorem baseConfig_thinking (tbm : List String) (mu : String)
    (tb : Option ThinkingBudgetArg) :
    (baseConfig tbm mu tb).thinking_config =
      (match tb with
        | some (ThinkingBudgetArg.int b) =>
          if mu ∈ tbm then some (ThinkingConfig.mk true b) else none
        | _ => none) := by
  unfold baseConfig
  cases tb with
  | none => rfl
  | some t =>
    cases t with
    | int b => by_cases hb : mu ∈ tbm <;> simp [hb]
    | nonInt => rfl

theorem withJsonSchema_fields (cfg : GenerateContentConfig) :
    (withJsonSchema cfg).system_instruction = cfg.system_instruction ∧
    (withJsonSchema cfg).thinking_config = cfg.thinking_config ∧
    (withJsonSchema cfg).response_mime_type = some "application/json" ∧
    (withJsonSchema cfg).response_schema_attached = true :=
  ⟨rfl, rfl, rfl, rfl⟩

theorem resolveModel_congr (kw : Kwargs) (st0 st : SolverState)
    (h : st0._model = st._model) : resolveModel kw st0 = resolveModel kw st := by
  unfold resolveModel
  cases kw.model with
  | some v => rfl
  | none => exact h

theorem invoke_async_body_ok_points (tbm : List String) (o : ProviderOracle)
    (st : SolverState) (a : CallArgs) (r : ImageAreaSelectChallenge)
    (h : (invoke_async_body tbm o st a).result = Except.ok r) : r.points ≠ [] := by
  cases hM : resolveModel a.kw st with
  | none => simp [invoke_async_body, hM] at h
  | some mu =>
    cases hU1 : o.upload a.challenge_screenshot with
    | none => simp [invoke_async_body, hM, hU1] at h
    | some f0 =>
      cases hU2 : o.upload a.grid_divisions with
      | none => simp [invoke_async_body, hM, hU1, hU2] at h
      | some f1 =>
        simp only [invoke_async_body, hM, hU1, hU2] at h
        by_cases hc : resolveSchemaFlag st._constraint_response_schema
            a.constraint_response_schema a.kw.enable_response_schema = false ∨
            mu ∈ ["gemini-2.0-flash-thinking-exp-01-21"]
        · rw [if_pos hc] at h
          obtain ⟨resp, -, hp, -⟩ := freeTextCall_ok _ _ _ _ _ _ _ h
          exact parseViaExtraction_points_ne_nil _ _ _ hp
        · rw [if_neg hc] at h
          exact structuredCall_ok_points _ _ _ _ _ _ _ h

theorem invoke_async_body_legacy_ok (tbm : List String) (o : ProviderOracle)
    (st : SolverState) (a : CallArgs) (r : ImageAreaSelectChallenge)
    (hM : resolveModel a.kw st = some "gemini-2.0-flash-thinking-exp-01-21")
    (h : (invoke_async_body tbm o st a).result = Except.ok r) :
    ∃ resp, (invoke_async_body tbm o st a).state = setResponse st resp ∧
      parseViaExtraction o resp.text = some r := by
  cases hU1 : o.upload a.challenge_screenshot with
  | none => simp [invoke_async_body, hM, hU1] at h
  | some f0 =>
    cases hU2 : o.upload a.grid_divisions with
    | none => simp [invoke_async_body, hM, hU1, hU2] at h
    | some f1 =>
      simp only [invoke_async_body, hM, hU1, hU2] at h ⊢
      rw [if_pos (Or.inr (by simp))] at h ⊢
      obtain ⟨resp, -, hp, hst⟩ := freeTextCall_ok _ _ _ _ _ _ _ h
      exact ⟨resp, hst, hp⟩

/-- **C3**: for every input, the user content passed to any inference call of
`invoke_async` consists of one `"user"` turn whose parts place the two image
references first — the part built from the `challenge_screenshot` upload
handle first, the part built from the `grid_divisions` upload handle second —
and the optional auxiliary text last; the fixed `THINKING_PROMPT` is carried
as the out-of-band `system_instruction` of the request config, and the only
text part that can occur among the content parts is the caller's own
auxiliary string — the adapter never inserts the system instruction there. -/
theorem contents_order_and_system_instruction
    (tbm : List String) (oracles : Nat → ProviderOracle) (st : SolverState)
    (a : CallArgs) (m : String) (cts : List Content) (cfg : GenerateContentConfig)
    (h : NetEvent.generate m cts cfg ∈ (invoke_async tbm oracles st a).events) :
    cfg.system_instruction = THINKING_PROMPT ∧
    (∃ k f0 f1 rest,
      (oracles k).upload a.challenge_screenshot = some f0 ∧
      (oracles k).upload a.grid_divisions = some f1 ∧
      cts = [Content.mk "user"
        ([Part.from_uri f0.uri f0.mime_type, Part.from_uri f1.uri f1.mime_type] ++
          rest)] ∧
      (rest = [] ∨ ∃ s, s ≠ "" ∧ a.auxiliary_information = PyStrOpt.str s ∧
        rest = [Part.from_text s])) ∧
    (∀ c, c ∈ cts → ∀ t, Part.from_text t ∈ c.parts →
      a.auxiliary_information = PyStrOpt.str t) := by
  obtain ⟨k, st0, h1, h2, hmem⟩ := retryRun_generate tbm oracles a 2 1 st m cts cfg h
  obtain ⟨hM, f0, f1, hU1, hU2, hcts, hcfg⟩ :=
    invoke_async_body_generate tbm (oracles k) st0 a m cts cfg hmem
  refine ⟨?_, ?_, ?_⟩
  · rcases hcfg with hcfg | ⟨hcfg, -, -⟩
    · rw [hcfg]
      exact (baseConfig_fields ..).1
    · rw [hcfg, (withJsonSchema_fields _).1]
      exact (baseConfig_fields ..).1
  · refine ⟨k, f0, f1,
      (match a.auxiliary_information with
        | PyStrOpt.str s => if s = "" then [] else [Part.from_text s]
        | _ => []), hU1, hU2, ?_, ?_⟩
    · rw [hcts, buildParts_eq]
    · cases hA : a.auxiliary_information with
      | str s =>
        by_cases hs : s = ""
        · exact Or.inl (by simp [hs])
        · exact Or.inr ⟨s, hs, rfl, by simp [hs]⟩
      | pyNone => exact Or.inl rfl
      | nonStr => exact Or.inl rfl
  · intro c hc t ht
    rw [hcts] at hc
    simp only [List.mem_cons, List.not_mem_nil, or_false] at hc
    subst hc
    exact buildParts_text_mem f0 f1 a.auxiliary_information t ht

/-- **C3 witness**: the successful demo run issues a generate call, and the
theorem applied to its content/config yields the out-of-band system
instruction. -/
theorem contents_order_and_system_instruction_witness :
    (GenerateContentConfig.mk 0 THINKING_PROMPT none none false).system_instruction =
      THINKING_PROMPT :=
  (contents_order_and_system_instruction [] (fun _ => okOracle) demoState demoArgs
    "gemini-2.5-pro"
    [Content.mk "user" [Part.from_uri "files/challenge.png" "image/png",
                        Part.from_uri "files/grid.png" "image/png"]]
    (GenerateContentConfig.mk 0 THINKING_PROMPT none none false)
    (List.Mem.tail _ (List.Mem.tail _ (List.Mem.head _)))).1

/-- **C10**: for every inference call, the content parts are exactly the two
image parts followed by a text part if and only if `auxiliary_information`
is a non-empty string; when it is `None`, the empty string, or a non-string
value, no text part is appended. -/
theorem aux_text_part_iff_nonempty_string
    (tbm : List String) (oracles : Nat → ProviderOracle) (st : SolverState)
    (a : CallArgs) (m : String) (cts : List Content) (cfg : GenerateContentConfig)
    (h : NetEvent.generate m cts cfg ∈ (invoke_async tbm oracles st a).events) :
    ∃ u0 t0 u1 t1, cts = [Content.mk "user"
      ([Part.from_uri u0 t0, Part.from_uri u1 t1] ++
        (match a.auxiliary_information with
          | PyStrOpt.str s => if s = "" then [] else [Part.from_text s]
          | _ => []))] := by
  obtain ⟨k, st0, -, -, hmem⟩ := retryRun_generate tbm oracles a 2 1 st m cts cfg h
  obtain ⟨-, f0, f1, -, -, hcts, -⟩ :=
    invoke_async_body_generate tbm (oracles k) st0 a m cts cfg hmem
  exact ⟨f0.uri, f0.mime_type, f1.uri, f1.mime_type, by rw [hcts, buildParts_eq]⟩

/-- **C10 witness**: with a non-empty auxiliary string `"hint"` the demo
run's generate call carries the two image parts plus the text part. -/
theorem aux_text_part_iff_nonempty_string_witness :
    ∃ u0 t0 u1 t1,
      [Content.mk "user" [Part.from_uri "files/challenge.png" "image/png",
                          Part.from_uri "files/grid.png" "image/png",
                          Part.from_text "hint"]] =
        [Content.mk "user" ([Part.from_uri u0 t0, Part.from_uri u1 t1] ++
          (match auxArgs.auxiliary_information with
            | PyStrOpt.str s => if s = "" then [] else [Part.from_text s]
            | _ => []))] :=
  aux_text_part_iff_nonempty_string [] (fun _ => okOracle) demoState auxArgs
    "gemini-2.5-pro"
    [Content.mk "user" [Part.from_uri "files/challenge.png" "image/png",
                        Part.from_uri "files/grid.png" "image/png",
                        Part.from_text "hint"]]
    (GenerateContentConfig.mk 0 THINKING_PROMPT none none false)
    (List.Mem.tail _ (List.Mem.tail _ (List.Mem.head _)))

/-- **C7**: a request config carries a thinking configuration (visible
reasoning trace on, budget capped at the supplied value) if and only if the
resolved model is among the thinking-budget-capable models and an integer
thinking budget was supplied in the call's kwargs; otherwise the config
carries no thinking configuration. -/
theorem thinking_config_iff_budget_and_capable
    (tbm : List String) (oracles : Nat → ProviderOracle) (st : SolverState)
    (a : CallArgs) (m : String) (cts : List Content) (cfg : GenerateContentConfig)
    (h : NetEvent.generate m cts cfg ∈ (invoke_async tbm oracles st a).events) :
    cfg.thinking_config =
      (match a.kw.thinking_budget with
        | some (ThinkingBudgetArg.int b) =>
          if m ∈ tbm then some (ThinkingConfig.mk true b) else none
        | _ => none) := by
  obtain ⟨k, st0, -, -, hmem⟩ := retryRun_generate tbm oracles a 2 1 st m cts cfg h
  obtain ⟨-, f0, f1, -, -, -, hcfg⟩ :=
    invoke_async_body_generate tbm (oracles k) st0 a m cts cfg hmem
  rcases hcfg with hcfg | ⟨hcfg, -, -⟩
  · rw [hcfg, baseConfig_thinking]
  · rw [hcfg, (withJsonSchema_fields _).2.1, baseConfig_thinking]

/-- **C7 witness**: a capable model with an integer budget of 1024 gets the
thinking configuration `(include_thoughts := true, budget 1024)`. -/
theorem thinking_config_iff_budget_and_capable_witness :
    (baseConfig tbModels "gemini-2.5-pro"
      (some (ThinkingBudgetArg.int 1024))).thinking_config =
      some (ThinkingConfig.mk true 1024) :=
  thinking_config_iff_budget_and_capable tbModels (fun _ => okOracle) demoState
    budgetArgs "gemini-2.5-pro"
    [Content.mk "user" [Part.from_uri "files/challenge.png" "image/png",
                        Part.from_uri "files/grid.png" "image/png"]]
    (baseConfig tbModels "gemini-2.5-pro" (some (ThinkingBudgetArg.int 1024)))
    (List.Mem.tail _ (List.Mem.tail _ (List.Mem.head _)))

/-- **C9**: every successful return of the retry-wrapped `invoke_async`
carries a non-empty `points` sequence (the `challenge_prompt` is a string by
the type of `ImageAreaSelectChallenge`). -/
theorem success_points_nonempty (tbm : List String)
    (oracles : Nat → ProviderOracle) (st : SolverState) (a : CallArgs)
    (r : ImageAreaSelectChallenge)
    (h : (invoke_async tbm oracles st a).result = Except.ok r) : r.points ≠ [] := by
  obtain ⟨k, st0, -, -, hok, -⟩ := retryRun_ok tbm oracles a 2 1 st r h
  exact invoke_async_body_ok_points tbm (oracles k) st0 a r hok

/-- **C9 witness**: the demo run succeeds with `demoChallenge`, whose points
are non-empty. -/
theorem success_points_nonempty_witness : demoChallenge.points ≠ [] :=
  success_points_nonempty [] (fun _ => okOracle) demoState demoArgs demoChallenge rfl

/-- **C5**: when the resolved model is the legacy
`gemini-2.0-flash-thinking-exp-01-21`, every generate call of the run is in
free-text mode (no JSON mime type, no response schema attached) even if
schema-constrained output was requested, and any successful result is built
by extracting the first JSON block from the stored response's text. -/
theorem legacy_model_uses_free_text (tbm : List String)
    (oracles : Nat → ProviderOracle) (st : SolverState) (a : CallArgs)
    (hM : resolveModel a.kw st = some "gemini-2.0-flash-thinking-exp-01-21") :
    (∀ m cts cfg, NetEvent.generate m cts cfg ∈ (invoke_async tbm oracles st a).events →
      cfg.response_mime_type = none ∧ cfg.response_schema_attached = false) ∧
    (∀ r, (invoke_async tbm oracles st a).result = Except.ok r →
      ∃ k resp, parseViaExtraction (oracles k) resp.text = some r ∧
        (invoke_async tbm oracles st a).state._response = some resp) := by
  constructor
  · intro m cts cfg h
    obtain ⟨k, st0, h1, -, hmem⟩ := retryRun_generate tbm oracles a 2 1 st m cts cfg h
    obtain ⟨hM0, f0, f1, -, -, -, hcfg⟩ :=
      invoke_async_body_generate tbm (oracles k) st0 a m cts cfg hmem
    rw [resolveModel_congr a.kw st0 st h1, hM] at hM0
    have hm : m = "gemini-2.0-flash-thinking-exp-01-21" := (Option.some.inj hM0).symm
    rcases hcfg with hcfg | ⟨-, hnotin, -⟩
    · rw [hcfg]
      exact ⟨(baseConfig_fields ..).2.1, (baseConfig_fields ..).2.2.1⟩
    · rw [hm] at hnotin
      exact absurd (List.mem_cons_self _ _) hnotin
  · intro r h
    obtain ⟨k, st0, h1, -, hok, hstate⟩ := retryRun_ok tbm oracles a 2 1 st r h
    have hM0 : resolveModel a.kw st0 = some "gemini-2.0-flash-thinking-exp-01-21" := by
      rw [resolveModel_congr a.kw st0 st h1, hM]
    obtain ⟨resp, hst, hp⟩ := invoke_async_body_legacy_ok tbm (oracles k) st0 a r hM0 hok
    refine ⟨k, resp, hp, ?_⟩
    unfold invoke_async
    rw [hstate, hst]
    rfl

/-- **C5 witness**: with the legacy model stored as default and the schema
flag on, the run's generate call still has no JSON mime type and no schema
attached. -/
theorem legacy_model_uses_free_text_witness :
    (baseConfig [] "gemini-2.0-flash-thinking-exp-01-21" none).response_mime_type =
      none ∧
    (baseConfig [] "gemini-2.0-flash-thinking-exp-01-21" none).response_schema_attached =
      false :=
  (legacy_model_uses_free_text [] (fun _ => okOracle) legacyState demoArgs rfl).1
    "gemini-2.0-flash-thinking-exp-01-21"
    [Content.mk "user" [Part.from_uri "files/challenge.png" "image/png",
                        Part.from_uri "files/grid.png" "image/png"]]
    (baseConfig [] "gemini-2.0-flash-thinking-exp-01-21" none)
    (List.Mem.tail _ (List.Mem.tail _ (List.Mem.head _)))

/-- **C6**: within one attempt, both image uploads are issued as a pair
(fork-join of `asyncio.gather` — whenever the model resolves, the first two
trace events are the two uploads, issued together regardless of either's
outcome); an inference call appears in the trace only after both uploads and
only when both succeeded; and when either upload fails the attempt yields no
inference call and no successful result. -/
theorem generate_after_both_uploads (tbm : List String) (o : ProviderOracle)
    (st : SolverState) (a : CallArgs) :
    ((resolveModel a.kw st).isSome →
      (invoke_async_body tbm o st a).events.take 2 =
        [NetEvent.upload a.challenge_screenshot, NetEvent.upload a.grid_divisions]) ∧
    (∀ m cts cfg, NetEvent.generate m cts cfg ∈ (invoke_async_body tbm o st a).events →
      (o.upload a.challenge_screenshot).isSome ∧ (o.upload a.grid_divisions).isSome ∧
      (invoke_async_body tbm o st a).events =
        [NetEvent.upload a.challenge_screenshot, NetEvent.upload a.grid_divisions,
         NetEvent.generate m cts cfg]) ∧
    ((o.upload a.challenge_screenshot = none ∨ o.upload a.grid_divisions = none) →
      (∀ m cts cfg, NetEvent.generate m cts cfg ∉ (invoke_async_body tbm o st a).events) ∧
      (∀ r, (invoke_async_body tbm o st a).result ≠ Except.ok r)) := by
  refine ⟨?_, ?_, ?_⟩
  · intro hM0
    cases hM : resolveModel a.kw st with
    | none => rw [hM] at hM0; simp at hM0
    | some mu =>
      cases hU1 : o.upload a.challenge_screenshot with
      | none => simp only [invoke_async_body, hM, hU1]; rfl
      | some f0 =>
        cases hU2 : o.upload a.grid_divisions with
        | none => simp only [invoke_async_body, hM, hU1, hU2]; rfl
        | some f1 =>
          simp only [invoke_async_body, hM, hU1, hU2]
          split
          · rw [freeTextCall_events]
            rfl
          · rw [structuredCall_events]
            rfl
  · intro m cts cfg h
    cases hM : resolveModel a.kw st with
    | none => simp [invoke_async_body, hM] at h
    | some mu =>
      cases hU1 : o.upload a.challenge_screenshot with
      | none => simp [invoke_async_body, hM, hU1] at h
      | some f0 =>
        cases hU2 : o.upload a.grid_divisions with
        | none => simp [invoke_async_body, hM, hU1, hU2] at h
        | some f1 =>
          refine ⟨rfl, rfl, ?_⟩
          simp only [invoke_async_body, hM, hU1, hU2] at h ⊢
          by_cases hc : resolveSchemaFlag st._constraint_response_schema
              a.constraint_response_schema a.kw.enable_response_schema = false ∨
              mu ∈ ["gemini-2.0-flash-thinking-exp-01-21"]
          · rw [if_pos hc, freeTextCall_events] at h ⊢
            simp only [List.mem_append, List.mem_cons, List.not_mem_nil, or_false,
              false_or, NetEvent.generate.injEq, reduceCtorEq] at h
            obtain ⟨hm, hcts, hcfg⟩ := h
            rw [hm, hcts, hcfg]
            rfl
          · rw [if_neg hc, structuredCall_events] at h ⊢
            simp only [List.mem_append, List.mem_cons, List.not_mem_nil, or_false,
              false_or, NetEvent.generate.injEq, reduceCtorEq] at h
            obtain ⟨hm, hcts, hcfg⟩ := h
            rw [hm, hcts, hcfg]
            rfl
  · intro hU
    cases hM : resolveModel a.kw st with
    | none =>
      refine ⟨?_, ?_⟩
      · intro m cts cfg h
        simp [invoke_async_body, hM] at h
      · intro r h
        simp [invoke_async_body, hM] at h
    | some mu =>
      rcases hU with hU | hU
      · refine ⟨?_, ?_⟩
        · intro m cts cfg h
          simp [invoke_async_body, hM, hU] at h
        · intro r h
          simp [invoke_async_body, hM, hU] at h
      · cases hU1 : o.upload a.challenge_screenshot with
        | none =>
          refine ⟨?_, ?_⟩
          · intro m cts cfg h
            simp [invoke_async_body, hM, hU1] at h
          · intro r h
            simp [invoke_async_body, hM, hU1] at h
        | some f0 =>
          refine ⟨?_, ?_⟩
          · intro m cts cfg h
            simp [invoke_async_body, hM, hU1, hU] at h
          · intro r h
            simp [invoke_async_body, hM, hU1, hU] at h

/-- **C6 witness**: with a provider whose uploads fail, no inference event
can occur in the attempt. -/
theorem generate_after_both_uploads_witness :
    NetEvent.generate "x" []
        (GenerateContentConfig.mk 0 THINKING_PROMPT none none false) ∉
      (invoke_async_body [] failUploadOracle demoState demoArgs).events :=
  ((generate_after_both_uploads [] failUploadOracle demoState demoArgs).2.2
    (Or.inl rfl)).1 "x" []
    (GenerateContentConfig.mk 0 THINKING_PROMPT none none false)

/-- **C1 counterexample**: with no model resolvable anywhere, the run's log
trace shows the `ValueError` was retried twice before the final failure —
contradicting the claim that the failure is not retried — although, as the
claim also states, no network call is ever attempted. -/
theorem invalid_config_error_is_retried_cex :
    (invoke_async [] (fun _ => okOracle) noModelState demoArgs).logs =
      [LogEvent.retryWarning 1 2 (PyError.valueError modelRequiredMsg),
       LogEvent.sleep 3,
       LogEvent.retryWarning 2 2 (PyError.valueError modelRequiredMsg),
       LogEvent.sleep 3] ∧
    (invoke_async [] (fun _ => okOracle) noModelState demoArgs).events = [] :=
  ⟨rfl, rfl⟩

/-- **C1 amended**: if no model identifier is resolvable at call time, each
attempt raises the `ValueError` before any network interaction — the whole
run performs zero uploads and zero inference calls and leaves the solver
unchanged — but the retry envelope does retry that failure (two logged
retries with 3-second waits), and the run ends with a `RetryError` wrapping
the `ValueError` rather than an immediate bare failure. -/
theorem no_model_fails_without_network_calls (tbm : List String)
    (oracles : Nat → ProviderOracle) (st : SolverState) (a : CallArgs)
    (hM : resolveModel a.kw st = none) :
    (invoke_async tbm oracles st a).result =
      Except.error (FinalError.retryError (PyError.valueError modelRequiredMsg)) ∧
    (invoke_async tbm oracles st a).events = [] ∧
    (invoke_async tbm oracles st a).state = st ∧
    (invoke_async tbm oracles st a).logs =
      [LogEvent.retryWarning 1 2 (PyError.valueError modelRequiredMsg),
       LogEvent.sleep 3,
       LogEvent.retryWarning 2 2 (PyError.valueError modelRequiredMsg),
       LogEvent.sleep 3] := by
  have hbody : ∀ k, invoke_async_body tbm (oracles k) st a =
      AttemptResult.mk (Except.error (PyError.valueError modelRequiredMsg)) st [] := by
    intro k
    simp [invoke_async_body, hM]
  unfold invoke_async
  rw [show (2 : Nat) = Nat.succ (Nat.succ 0) from rfl]
  simp only [retryRun, hbody]
  simp

/-- **C1 witness**: the concrete no-model run ends with the wrapped
`ValueError` and an empty network trace. -/
theorem no_model_fails_without_network_calls_witness :
    (invoke_async [] (fun _ => okOracle) noModelState demoArgs).result =
      Except.error (FinalError.retryError (PyError.valueError modelRequiredMsg)) ∧
    (invoke_async [] (fun _ => okOracle) noModelState demoArgs).events = [] :=
  ⟨(no_model_fails_without_network_calls [] (fun _ => okOracle) noModelState
      demoArgs rfl).1,
   (no_model_fails_without_network_calls [] (fun _ => okOracle) noModelState
      demoArgs rfl).2.1⟩

/-- **C2 counterexample**: after the third attempt fails, what propagates is
a `RetryError` wrapping the last exception (tenacity's default
`reraise=False`), not the last exception unmodified as the claim states. -/
theorem retry_wraps_final_error_cex :
    (invoke_async [] (fun _ => failUploadOracle) demoState demoArgs).result =
      Except.error (FinalError.retryError PyError.uploadError) ∧
    (Except.error (FinalError.retryError PyError.uploadError) :
        Except FinalError ImageAreaSelectChallenge) ≠
      Except.error (FinalError.raw PyError.uploadError) :=
  ⟨rfl, by simp⟩

/-- **C2 amended**: if every attempt fails (with any exceptions), the
operation makes exactly 3 attempts — the first two failures are each logged
with their attempt number and triggering error and followed by a fixed
3-second wait, and after the third failure no further attempt is made (no
third warning) and a `RetryError` wrapping the last attempt's exception
propagates to the caller. -/
theorem retry_exhaustion_three_attempts (tbm : List String)
    (oracles : Nat → ProviderOracle) (st : SolverState) (a : CallArgs)
    (e : Nat → PyError)
    (hfail : ∀ k st0, (invoke_async_body tbm (oracles k) st0 a).result =
      Except.error (e k)) :
    (invoke_async tbm oracles st a).result =
      Except.error (FinalError.retryError (e 3)) ∧
    (invoke_async tbm oracles st a).logs =
      [LogEvent.retryWarning 1 2 (e 1), LogEvent.sleep 3,
       LogEvent.retryWarning 2 2 (e 2), LogEvent.sleep 3] := by
  unfold invoke_async
  rw [show (2 : Nat) = Nat.succ (Nat.succ 0) from rfl]
  simp only [retryRun, hfail]
  simp

/-- **C2 witness**: a provider whose uploads always fail makes the run raise
the wrapped upload error after two logged retries. -/
theorem retry_exhaustion_three_attempts_witness :
    (invoke_async [] (fun _ => failUploadOracle) demoState kwModelArgs).result =
      Except.error (FinalError.retryError PyError.uploadError) ∧
    (invoke_async [] (fun _ => failUploadOracle) demoState kwModelArgs).logs =
      [LogEvent.retryWarning 1 2 PyError.uploadError, LogEvent.sleep 3,
       LogEvent.retryWarning 2 2 PyError.uploadError, LogEvent.sleep 3] :=
  retry_exhaustion_three_attempts [] (fun _ => failUploadOracle) demoState
    kwModelArgs (fun _ => PyError.uploadError) (fun _ _ => rfl)

/-- **C4 counterexample**: a call with the explicit argument
`constraint_response_schema = True` and the kwargs override
`enable_response_schema = False` resolves the flag to `False` — the kwargs
override wins, where the claim's precedence predicts `True` — and the run
accordingly issues its generate call in free-text mode (no schema
attached). -/
theorem schema_flag_precedence_cex :
    resolveSchemaFlag false (some true) (some false) = false ∧
    resolveSchemaFlagSpec false (some true) (some false) = true ∧
    (invoke_async [] (fun _ => okOracle) demoState argsC4).events =
      [NetEvent.upload "challenge.png", NetEvent.upload "grid.png",
       NetEvent.generate "gemini-2.5-pro"
         [Content.mk "user" [Part.from_uri "files/challenge.png" "image/png",
                             Part.from_uri "files/grid.png" "image/png"]]
         (GenerateContentConfig.mk 0 THINKING_PROMPT none none false)] :=
  ⟨rfl, rfl, rfl⟩

/-- **C4 amended**: the effective schema-constraint flag gives a supplied
kwargs `enable_response_schema` top priority; the explicit
`constraint_response_schema` argument takes priority over the constructor
default only when no kwargs override is supplied. -/
theorem schema_flag_precedence (stored : Bool) (arg : Option Bool) (b : Bool) :
    resolveSchemaFlag stored arg (some b) = b ∧
    resolveSchemaFlag stored (some b) none = b ∧
    resolveSchemaFlag stored none none = stored :=
  ⟨rfl, rfl, rfl⟩

/-- **C8 counterexample**: a successful invocation stores the provider
response on the solver (`self._response`), observable by later calls — the
solver object does not stay free of shared mutable state. -/
theorem response_attribute_persists_cex :
    (invoke_async [] (fun _ => okOracle) demoState demoArgs).state._response =
      some demoResponse ∧
    demoState._response = none :=
  ⟨rfl, rfl⟩

/-- **C8 amended**: the construction-time fields (`_api_key`, `_model`,
`_constraint_response_schema`) are read-only — no invocation changes them —
but each invocation may mutate the solver's `_response` attribute, which is
the only field an invocation can change. -/
theorem construction_fields_read_only (tbm : List String)
    (oracles : Nat → ProviderOracle) (st : SolverState) (a : CallArgs) :
    ∃ os, (invoke_async tbm oracles st a).state =
      SolverState.mk st._api_key st._model st._constraint_response_schema os :=
  retryRun_state tbm oracles a 2 1 st

end HCaptcha
